import Mathlib

/-!
Shallow embedding of the apollo-hr-agent punch scheduler.

Time is modelled as `Int` seconds (local timeline). The randomness source of
`rand::thread_rng` is injected as a `draw : Nat`: the Rust call
`rng.gen_range(1..=j)` is modelled by `1 + draw % j`, which ranges over
exactly the inclusive interval `[1, j]` as `draw` ranges over `Nat`
(and panics — modelled as an error — when the range `1..=j` is empty,
i.e. when `j < 1`, exactly as `gen_range` does).
Rust panics (`unwrap` on `None` / empty `gen_range`) are modelled as
`Except.error` with a `PanicReason` naming the panic site.
-/

namespace ApolloHR

/-- `PunchType` from src/apollo/agent.rs: `PunchIn = 1`, `PunchOut = 2`. -/
inductive PunchType where
  | PunchIn
  | PunchOut
deriving DecidableEq, Repr

/-- The numeric discriminant of `PunchType` (`punch_type as u8`). -/
def punchTypeCode : PunchType → Nat
  | PunchType.PunchIn => 1
  | PunchType.PunchOut => 2

/-- `WorkdaySchedule` from src/apollo/workday_schedule.rs. The two optional
`DateTime<Local>` fields are modelled as optional `Int` timestamps
(seconds on the local timeline). -/
structure WorkdaySchedule where
  date : String
  work_on_time : Option Int
  work_off_time : Option Int
  memo : Option String
deriving DecidableEq, Repr

/-- `WorkdaySchedule::is_work_day`:
`self.work_on_time.is_some() || self.work_off_time.is_some()`. -/
def WorkdaySchedule.is_work_day (s : WorkdaySchedule) : Bool :=
  s.work_on_time.isSome || s.work_off_time.isSome

/-- The distinct panic sites of `get_punch_time_with_jitter`. -/
inductive PanicReason where
  | missingBaseTime
  | emptyJitterRange
deriving DecidableEq, Repr

/-- `rng.gen_range(1..=bound)`: panics when the range is empty
(`bound < 1`), otherwise yields a value in `[1, bound]` determined by the
injected draw. Every value of `[1, bound]` is realised by some draw. -/
def genRangeOneTo (bound : Int) (draw : Nat) : Except PanicReason Int :=
  if bound < 1 then Except.error PanicReason.emptyJitterRange
  else Except.ok (1 + (draw : Int) % bound)

/-- `WorkdaySchedule::get_punch_time_with_jitter`:
`jitter.unwrap_or(60)` is the bound; for `PunchIn` the drawn jitter is
subtracted from `work_on_time`, for `PunchOut` it is added to
`work_off_time`; `.unwrap()` on a missing base time panics before
`gen_range` is ever evaluated (the closure passed to `map` does not run). -/
def WorkdaySchedule.get_punch_time_with_jitter (s : WorkdaySchedule)
    (punch_type : PunchType) (jitter : Option Nat) (draw : Nat) :
    Except PanicReason Int :=
  let jitter_second : Int := (jitter.getD 60 : Nat)
  match punch_type with
  | PunchType.PunchIn =>
    match s.work_on_time with
    | none => Except.error PanicReason.missingBaseTime
    | some t => (genRangeOneTo jitter_second draw).map (fun j => t - j)
  | PunchType.PunchOut =>
    match s.work_off_time with
    | none => Except.error PanicReason.missingBaseTime
    | some t => (genRangeOneTo jitter_second draw).map (fun j => t + j)

/-- The base time `get_punch_time_with_jitter` reads for each punch kind. -/
def relevantBase (s : WorkdaySchedule) : PunchType → Option Int
  | PunchType.PunchIn => s.work_on_time
  | PunchType.PunchOut => s.work_off_time

/-- A concrete work-day schedule (the spec's 2023-09-23 scenario,
09:00 = 32400 s, 18:00 = 64800 s into the day). -/
def sched0 : WorkdaySchedule :=
  { date := "2023-09-23", work_on_time := some 32400,
    work_off_time := some 64800, memo := some "makeup workday" }

/-- A concrete non-work-day schedule (the spec's 2023-01-01 scenario). -/
def schedOff : WorkdaySchedule :=
  { date := "2023-01-01", work_on_time := none,
    work_off_time := none, memo := some "New Year" }

theorem genRangeOneTo_ok (bound : Int) (draw : Nat) (h : 1 ≤ bound) :
    ∃ j, genRangeOneTo bound draw = Except.ok j ∧ 1 ≤ j ∧ j ≤ bound := by
  refine ⟨1 + (draw : Int) % bound, ?_, ?_, ?_⟩
  · simp [genRangeOneTo, not_lt.mpr h]
  · have := Int.emod_nonneg (draw : Int) (by omega : bound ≠ 0)
    omega
  · have := Int.emod_lt_of_pos (draw : Int) (by omega : 0 < bound)
    omega

/-- C1: with `work_on_time = T` and positive jitter bound `J`, the punch-in
target lies in `[T - J, T - 1]`; with `work_off_time = T`, the punch-out
target lies in `[T + 1, T + J]`, for every draw of the randomness source. -/
theorem c1_jitter_target_range (s : WorkdaySchedule) (T : Int) (J : Nat)
    (draw : Nat) (hJ : 0 < J) :
    (s.work_on_time = some T →
      ∃ r, s.get_punch_time_with_jitter PunchType.PunchIn (some J) draw =
        Except.ok r ∧ T - J ≤ r ∧ r ≤ T - 1) ∧
    (s.work_off_time = some T →
      ∃ r, s.get_punch_time_with_jitter PunchType.PunchOut (some J) draw =
        Except.ok r ∧ T + 1 ≤ r ∧ r ≤ T + J) := by
  have hJ1 : (1 : Int) ≤ (J : Nat) := by exact_mod_cast hJ
  obtain ⟨j, hja, hj1, hj2⟩ := genRangeOneTo_ok (J : Nat) draw hJ1
  constructor
  · intro hon
    refine ⟨T - j, ?_, by omega, by omega⟩
    simp [WorkdaySchedule.get_punch_time_with_jitter, hon, hja, Except.map]
  · intro hoff
    refine ⟨T + j, ?_, by omega, by omega⟩
    simp [WorkdaySchedule.get_punch_time_with_jitter, hoff, hja, Except.map]

/-- C1 witness: the 2023-09-23 schedule with T = 32400, J = 60, draw 0. -/
theorem c1_jitter_target_range_witness :
    (sched0.work_on_time = some 32400 →
      ∃ r, sched0.get_punch_time_with_jitter PunchType.PunchIn (some 60) 0 =
        Except.ok r ∧ 32400 - 60 ≤ r ∧ r ≤ 32400 - 1) ∧
    (sched0.work_off_time = some 32400 →
      ∃ r, sched0.get_punch_time_with_jitter PunchType.PunchOut (some 60) 0 =
        Except.ok r ∧ 32400 + 1 ≤ r ∧ r ≤ 32400 + 60) :=
  c1_jitter_target_range sched0 32400 60 0 (by decide)

/-- C5: `is_work_day` is `false` exactly when both optional times are
absent, and `true` when at least one is present. -/
theorem c5_is_work_day_iff (s : WorkdaySchedule) :
    (s.is_work_day = false ↔
      s.work_on_time = none ∧ s.work_off_time = none) ∧
    ((s.work_on_time ≠ none ∨ s.work_off_time ≠ none) →
      s.is_work_day = true) := by
  cases hon : s.work_on_time <;> cases hoff : s.work_off_time <;>
    simp [WorkdaySchedule.is_work_day, hon, hoff]

/-- C5 witness: the non-work 2023-01-01 schedule. -/
theorem c5_is_work_day_iff_witness :
    (schedOff.is_work_day = false ↔
      schedOff.work_on_time = none ∧ schedOff.work_off_time = none) ∧
    ((schedOff.work_on_time ≠ none ∨ schedOff.work_off_time ≠ none) →
      schedOff.is_work_day = true) :=
  c5_is_work_day_iff schedOff

/-- C6: `get_punch_time_with_jitter` hits the `unwrap`-on-`None` panic
(missing base time) exactly when the base time relevant to the requested
punch kind is absent; by its return type it never produces a recoverable
error value, a panic is its only failure mode. -/
theorem c6_missing_base_time_panic (s : WorkdaySchedule) (pt : PunchType)
    (jitter : Option Nat) (draw : Nat) :
    s.get_punch_time_with_jitter pt jitter draw =
      Except.error PanicReason.missingBaseTime ↔
    relevantBase s pt = none := by
  cases pt
  case PunchIn =>
    cases hon : s.work_on_time with
    | none =>
      simp [WorkdaySchedule.get_punch_time_with_jitter, relevantBase, hon]
    | some t =>
      by_cases hlt : ((jitter.getD 60 : Nat) : Int) < 1 <;>
        simp [WorkdaySchedule.get_punch_time_with_jitter, relevantBase, hon,
          genRangeOneTo, hlt, Except.map]
  case PunchOut =>
    cases hoff : s.work_off_time with
    | none =>
      simp [WorkdaySchedule.get_punch_time_with_jitter, relevantBase, hoff]
    | some t =>
      by_cases hlt : ((jitter.getD 60 : Nat) : Int) < 1 <;>
        simp [WorkdaySchedule.get_punch_time_with_jitter, relevantBase, hoff,
          genRangeOneTo, hlt, Except.map]

/-- C8: the computed target never equals the base time `T`; and the call
with jitter bound 0 is refused by a panic (`gen_range` on the empty range
`1..=0`), never yielding a timestamp at all. -/
theorem c8_never_exact_base (s : WorkdaySchedule) (pt : PunchType) (T : Int)
    (jitter : Option Nat) (draw : Nat) (hT : relevantBase s pt = some T) :
    s.get_punch_time_with_jitter pt jitter draw ≠ Except.ok T ∧
    s.get_punch_time_with_jitter pt (some 0) draw =
      Except.error PanicReason.emptyJitterRange := by
  cases pt
  case PunchIn =>
    simp only [relevantBase] at hT
    refine ⟨?_, ?_⟩
    · by_cases hlt : ((jitter.getD 60 : Nat) : Int) < 1
      · simp [WorkdaySchedule.get_punch_time_with_jitter, hT, genRangeOneTo,
          hlt, Except.map]
      · have h1 : (0 : Int) ≤ (draw : Int) % ((jitter.getD 60 : Nat) : Int) :=
          Int.emod_nonneg _ (by omega)
        simp only [WorkdaySchedule.get_punch_time_with_jitter, hT,
          genRangeOneTo, if_neg hlt, Except.map, ne_eq, Except.ok.injEq]
        omega
    · simp [WorkdaySchedule.get_punch_time_with_jitter, hT, genRangeOneTo,
        Except.map]
  case PunchOut =>
    simp only [relevantBase] at hT
    refine ⟨?_, ?_⟩
    · by_cases hlt : ((jitter.getD 60 : Nat) : Int) < 1
      · simp [WorkdaySchedule.get_punch_time_with_jitter, hT, genRangeOneTo,
          hlt, Except.map]
      · have h1 : (0 : Int) ≤ (draw : Int) % ((jitter.getD 60 : Nat) : Int) :=
          Int.emod_nonneg _ (by omega)
        simp only [WorkdaySchedule.get_punch_time_with_jitter, hT,
          genRangeOneTo, if_neg hlt, Except.map, ne_eq, Except.ok.injEq]
        omega
    · simp [WorkdaySchedule.get_punch_time_with_jitter, hT, genRangeOneTo,
        Except.map]

/-- C8 witness: punch-in on the 2023-09-23 schedule, T = 32400, J = 60. -/
theorem c8_never_exact_base_witness :
    sched0.get_punch_time_with_jitter PunchType.PunchIn (some 60) 0 ≠
      Except.ok 32400 ∧
    sched0.get_punch_time_with_jitter PunchType.PunchIn (some 0) 0 =
      Except.error PanicReason.emptyJitterRange :=
  c8_never_exact_base sched0 PunchType.PunchIn 32400 (some 60) 0 (by decide)

/-! ## The daily loop (src/main.rs)

`_do_auto_punch` is modelled as a trace-producing function over an
environment supplying the collaborators' answers: the login result, the
fetched schedule, the two `Local::now()` samples taken before the punch-in
and punch-out checks, the two randomness draws, and the two punch
submission outcomes (`true` = `Ok`, `false` = `Err`). `None` models a
process panic (an `unwrap` on an `Err`/`None`). -/

/-- Observable events of one `_do_auto_punch` run. -/
inductive Event where
  | notWorkDaySkip (date : String)
  | arranged (punch_in_t punch_out_t : Int)
  | slept (target : Int)
  | submitterInvoked (code : Nat) (ok : Bool)
  | phaseSkipped (code : Nat)
deriving DecidableEq, Repr

/-- `_do_punch`: invokes `agent.punch_card` once and reports its outcome
(pretty-prints the receipt on `Ok`, prints the error on `Err`); it never
propagates the error. -/
def _do_punch (result_ok : Bool) (punch_type : PunchType) : Event :=
  Event.submitterInvoked (punchTypeCode punch_type) result_ok

/-- One punch phase of `_do_auto_punch`: `if now < target` then
`sleep_until(&target); _do_punch(...)`, else print the skip message. -/
def phaseEvents (now target : Int) (punch_type : PunchType)
    (result_ok : Bool) : List Event :=
  if now < target then
    [Event.slept target, _do_punch result_ok punch_type]
  else
    [Event.phaseSkipped (punchTypeCode punch_type)]

/-- The collaborators' answers consumed by one `_do_auto_punch` run. -/
structure Env where
  login_ok : Bool
  fetch_result : Except String WorkdaySchedule
  draw_in : Nat
  draw_out : Nat
  now1 : Int
  now2 : Int
deriving Repr

/-- `_do_auto_punch` from src/main.rs: `agent.login().unwrap()` (panics on
error), `agent.get_today_schedule().unwrap()` (panics on error), the
non-work-day early return, both jittered targets computed up front with the
default jitter (`None`, hence 60 s), then the two guarded
sleep-and-punch phases. -/
def _do_auto_punch (env : Env) (punch_in_ok punch_out_ok : Bool) :
    Option (List Event) :=
  if env.login_ok = false then none
  else
    match env.fetch_result with
    | Except.error _ => none
    | Except.ok schedule =>
      if schedule.is_work_day = false then
        some [Event.notWorkDaySkip schedule.date]
      else
        match schedule.get_punch_time_with_jitter PunchType.PunchIn none
            env.draw_in with
        | Except.error _ => none
        | Except.ok punch_in_time =>
          match schedule.get_punch_time_with_jitter PunchType.PunchOut none
              env.draw_out with
          | Except.error _ => none
          | Except.ok punch_out_time =>
            some (Event.arranged punch_in_time punch_out_time ::
              (phaseEvents env.now1 punch_in_time PunchType.PunchIn
                  punch_in_ok ++
                phaseEvents env.now2 punch_out_time PunchType.PunchOut
                  punch_out_ok))

/-- Outcome of one iteration of the perpetual `auto_punch` loop. -/
inductive CycleOutcome where
  | processTerminated
  | rolloverWait (trace : List Event)
deriving DecidableEq, Repr

/-- One iteration of `auto_punch`: run `_do_auto_punch`; a panic inside it
propagates and terminates the process, otherwise control reaches the
`sleep_until(next day 07:00)` rollover wait. -/
def auto_punch_cycle (env : Env) (punch_in_ok punch_out_ok : Bool) :
    CycleOutcome :=
  match _do_auto_punch env punch_in_ok punch_out_ok with
  | none => CycleOutcome.processTerminated
  | some tr => CycleOutcome.rolloverWait tr

/-- Number of submitter invocations with a given attendance code in a
trace. -/
def submitCount (code : Nat) (tr : List Event) : Nat :=
  tr.countP fun e =>
    match e with
    | Event.submitterInvoked c _ => c == code
    | _ => false

/-- A local wall-clock instant: `day * 86400 + secs_in_day` seconds, the
decomposition `date_naive()` performs. -/
def local_now_abs (day secs_in_day : Int) : Int := day * 86400 + secs_in_day

/-- The rollover target of `auto_punch`:
`Local::now().date_naive().succ_opt().unwrap().and_hms_opt(7, 0, 0)`,
i.e. 07:00:00 on the day after the current date. -/
def rollover_wake_time (current_day : Int) : Int :=
  local_now_abs (current_day + 1) (7 * 3600)

/-- C3: the rollover wake-up instant is 07:00 of the calendar day after the
current date and is strictly in the future, wherever in the current day
(before or after 07:00) the current time lies. -/
theorem c3_rollover_strictly_future (day secs : Int) (h0 : 0 ≤ secs)
    (h1 : secs < 86400) :
    rollover_wake_time day = local_now_abs (day + 1) (7 * 3600) ∧
    local_now_abs day secs < rollover_wake_time day := by
  refine ⟨rfl, ?_⟩
  simp only [rollover_wake_time, local_now_abs]
  omega

/-- C3 witness: day 19623 at 10:00:00 (36000 s, after 07:00). -/
theorem c3_rollover_strictly_future_witness :
    rollover_wake_time 19623 = local_now_abs (19623 + 1) (7 * 3600) ∧
    local_now_abs 19623 36000 < rollover_wake_time 19623 :=
  c3_rollover_strictly_future 19623 36000 (by decide) (by decide)

/-- C2: in each punch phase, if the sampled current time is at or past the
target the trace records the phase as skipped and the submitter is not
invoked for that phase; if it is strictly before the target, the trace
records the suspension until the target followed by exactly one submitter
invocation for that phase. -/
theorem c2_phase_skip_or_fire (env : Env) (s : WorkdaySchedule)
    (tin tout : Int) (pin pout : Bool)
    (hlogin : env.login_ok = true)
    (hfetch : env.fetch_result = Except.ok s)
    (hwork : s.is_work_day = true)
    (hin : s.get_punch_time_with_jitter PunchType.PunchIn none env.draw_in =
      Except.ok tin)
    (hout : s.get_punch_time_with_jitter PunchType.PunchOut none env.draw_out =
      Except.ok tout) :
    ∃ tr, _do_auto_punch env pin pout = some tr ∧
      (tin ≤ env.now1 →
        Event.phaseSkipped 1 ∈ tr ∧ submitCount 1 tr = 0) ∧
      (env.now1 < tin →
        Event.slept tin ∈ tr ∧ submitCount 1 tr = 1) ∧
      (tout ≤ env.now2 →
        Event.phaseSkipped 2 ∈ tr ∧ submitCount 2 tr = 0) ∧
      (env.now2 < tout →
        Event.slept tout ∈ tr ∧ submitCount 2 tr = 1) := by
  refine ⟨Event.arranged tin tout ::
    (phaseEvents env.now1 tin PunchType.PunchIn pin ++
      phaseEvents env.now2 tout PunchType.PunchOut pout), ?_, ?_, ?_, ?_, ?_⟩
  · simp [_do_auto_punch, hlogin, hfetch, hwork, hin, hout]
  · intro hle
    have hnl : ¬ env.now1 < tin := not_lt.mpr hle
    by_cases h2 : env.now2 < tout <;>
      simp [phaseEvents, hnl, h2, submitCount, _do_punch, punchTypeCode,
        List.countP_cons, List.countP_append]
  · intro hlt
    by_cases h2 : env.now2 < tout <;>
      simp [phaseEvents, hlt, h2, submitCount, _do_punch, punchTypeCode,
        List.countP_cons, List.countP_append]
  · intro hle
    have hnl : ¬ env.now2 < tout := not_lt.mpr hle
    by_cases h1 : env.now1 < tin <;>
      simp [phaseEvents, hnl, h1, submitCount, _do_punch, punchTypeCode,
        List.countP_cons, List.countP_append]
  · intro hlt
    by_cases h1 : env.now1 < tin <;>
      simp [phaseEvents, hlt, h1, submitCount, _do_punch, punchTypeCode,
        List.countP_cons, List.countP_append]

/-- A concrete environment: work day fetched, punch-in already elapsed
(now = 09:10:00 = 33000 s past the 08:59:59 target), punch-out still ahead. -/
def env0 : Env :=
  { login_ok := true, fetch_result := Except.ok sched0,
    draw_in := 0, draw_out := 0, now1 := 33000, now2 := 33000 }

/-- C2 witness: in `env0` the punch-in phase (target 32399) is skipped with
no submitter call, and the punch-out phase (target 64801) sleeps and fires
exactly once. -/
theorem c2_phase_skip_or_fire_witness :
    ∃ tr, _do_auto_punch env0 true true = some tr ∧
      (32399 ≤ env0.now1 →
        Event.phaseSkipped 1 ∈ tr ∧ submitCount 1 tr = 0) ∧
      (env0.now1 < 32399 →
        Event.slept 32399 ∈ tr ∧ submitCount 1 tr = 1) ∧
      (64801 ≤ env0.now2 →
        Event.phaseSkipped 2 ∈ tr ∧ submitCount 2 tr = 0) ∧
      (env0.now2 < 64801 →
        Event.slept 64801 ∈ tr ∧ submitCount 2 tr = 1) :=
  c2_phase_skip_or_fire env0 sched0 32399 64801 true true (by rfl) (by rfl)
    (by decide) (by rfl) (by rfl)

/-- C7: whatever the punch-in submission outcome (`pin`), the cycle never
aborts: `_do_auto_punch` still yields a trace, the punch-in outcome is
reported in that trace when the submitter ran, the punch-out phase is still
reached and fires when its target is in the future, and neither submission
is ever invoked more than once in the cycle. -/
theorem c7_punch_out_regardless (env : Env) (s : WorkdaySchedule)
    (tin tout : Int) (pout : Bool)
    (hlogin : env.login_ok = true)
    (hfetch : env.fetch_result = Except.ok s)
    (hwork : s.is_work_day = true)
    (hin : s.get_punch_time_with_jitter PunchType.PunchIn none env.draw_in =
      Except.ok tin)
    (hout : s.get_punch_time_with_jitter PunchType.PunchOut none env.draw_out =
      Except.ok tout) :
    ∀ pin : Bool, ∃ tr,
      _do_auto_punch env pin pout = some tr ∧
      (env.now1 < tin → Event.submitterInvoked 1 pin ∈ tr) ∧
      (env.now2 < tout →
        Event.slept tout ∈ tr ∧ Event.submitterInvoked 2 pout ∈ tr) ∧
      submitCount 1 tr ≤ 1 ∧ submitCount 2 tr ≤ 1 := by
  intro pin
  refine ⟨Event.arranged tin tout ::
    (phaseEvents env.now1 tin PunchType.PunchIn pin ++
      phaseEvents env.now2 tout PunchType.PunchOut pout), ?_, ?_, ?_, ?_, ?_⟩
  · simp [_do_auto_punch, hlogin, hfetch, hwork, hin, hout]
  · intro h1
    simp [phaseEvents, h1, _do_punch, punchTypeCode]
  · intro h2
    simp [phaseEvents, h2, _do_punch, punchTypeCode]
  · by_cases h1 : env.now1 < tin <;> by_cases h2 : env.now2 < tout <;>
      simp [phaseEvents, h1, h2, submitCount, _do_punch, punchTypeCode,
        List.countP_cons, List.countP_append]
  · by_cases h1 : env.now1 < tin <;> by_cases h2 : env.now2 < tout <;>
      simp [phaseEvents, h1, h2, submitCount, _do_punch, punchTypeCode,
        List.countP_cons, List.countP_append]

/-- An environment in which both punch targets are still in the future
(now = 06:00:00 = 21600 s). -/
def envEarly : Env :=
  { login_ok := true, fetch_result := Except.ok sched0,
    draw_in := 0, draw_out := 0, now1 := 21600, now2 := 21600 }

/-- C7 witness: in `envEarly`, even with a failed punch-in submission
(`pin = false`), the punch-out phase still sleeps and fires. -/
theorem c7_punch_out_regardless_witness :
    ∃ tr,
      _do_auto_punch envEarly false true = some tr ∧
      (envEarly.now1 < 32399 → Event.submitterInvoked 1 false ∈ tr) ∧
      (envEarly.now2 < 64801 →
        Event.slept 64801 ∈ tr ∧ Event.submitterInvoked 2 true ∈ tr) ∧
      submitCount 1 tr ≤ 1 ∧ submitCount 2 tr ≤ 1 :=
  c7_punch_out_regardless envEarly sched0 32399 64801 true (by rfl) (by rfl)
    (by decide) (by rfl) (by rfl) false

/-- An environment whose re-authentication fails inside the loop. -/
def envAuthFail : Env :=
  { login_ok := false, fetch_result := Except.ok sched0,
    draw_in := 0, draw_out := 0, now1 := 0, now2 := 0 }

/-- C4 counterexample: a failed re-authentication inside the loop does NOT
proceed to the rollover wait; the `unwrap` panic terminates the whole
process (`auto_punch_cycle` ends in `processTerminated`, which is distinct
from every `rolloverWait` outcome). -/
theorem c4_auth_failure_kills_process :
    envAuthFail.login_ok = false ∧
    auto_punch_cycle envAuthFail true true =
      CycleOutcome.processTerminated := by
  exact ⟨rfl, rfl⟩

/-- C4 amended: when re-authentication or schedule fetch fails during a
loop iteration, the remaining punch attempts of that day are indeed
abandoned, but the failure is fatal to the whole process — the `unwrap`
panics and the loop never reaches the rollover wait, so the process does
not continue into the next day. -/
theorem c4_cycle_failure_is_process_fatal (env : Env)
    (pin pout : Bool)
    (h : env.login_ok = false ∨ ∃ e, env.fetch_result = Except.error e) :
    auto_punch_cycle env pin pout = CycleOutcome.processTerminated := by
  rcases h with hl | ⟨e, hf⟩
  · simp [auto_punch_cycle, _do_auto_punch, hl]
  · by_cases hl : env.login_ok = false
    · simp [auto_punch_cycle, _do_auto_punch, hl]
    · simp [auto_punch_cycle, _do_auto_punch, hl, hf]

/-- C4 amended witness: the failed-login environment. -/
theorem c4_cycle_failure_is_process_fatal_witness :
    auto_punch_cycle envAuthFail true true =
      CycleOutcome.processTerminated :=
  c4_cycle_failure_is_process_fatal envAuthFail true true (Or.inl rfl)

/-- The JSON body `punch_card` posts:
`{"AttendanceType": punch_type as u8, "IsOverride": false}`. -/
structure PunchPayload where
  attendance_type : Nat
  is_override : Bool
deriving DecidableEq, Repr

/-- The payload `ApolloAgent::punch_card` sends for a given punch kind. -/
def punch_card_payload (punch_type : PunchType) : PunchPayload :=
  ⟨punchTypeCode punch_type, false⟩

/-- C9: at the submission boundary, PunchIn maps to attendance code 1 and
PunchOut to code 2, and every punch request carries exactly that code with
the override flag always false. -/
theorem c9_attendance_codes :
    punch_card_payload PunchType.PunchIn = ⟨1, false⟩ ∧
    punch_card_payload PunchType.PunchOut = ⟨2, false⟩ ∧
    ∀ pt : PunchType,
      (punch_card_payload pt).attendance_type = punchTypeCode pt ∧
      (punch_card_payload pt).is_override = false := by
  refine ⟨rfl, rfl, ?_⟩
  intro pt
  cases pt <;> exact ⟨rfl, rfl⟩

/-- The characters of the literal `".json"`. -/
def jsonExt : List Char := ['.', 'j', 's', 'o', 'n']

/-- Rust `str::ends_with` on the character sequence. -/
def ends_with (s pat : List Char) : Bool := List.isSuffixOf pat s

/-- `get_config_filename` from src/main.rs: return the name unchanged when
it already ends with `".json"`, otherwise append `".json"`. -/
def get_config_filename (config_name : List Char) : List Char :=
  if ends_with config_name jsonExt then config_name
  else config_name ++ jsonExt

theorem ends_with_append_jsonExt (n : List Char) :
    ends_with (n ++ jsonExt) jsonExt = true := by
  simp only [ends_with, List.isSuffixOf_iff_suffix]
  exact List.suffix_append n jsonExt

/-- C10: `get_config_filename` always yields a name ending in `".json"`,
is idempotent, and returns a name already ending in `".json"` unchanged. -/
theorem c10_config_filename (n : List Char) :
    ends_with (get_config_filename n) jsonExt = true ∧
    get_config_filename (get_config_filename n) = get_config_filename n ∧
    (ends_with n jsonExt = true → get_config_filename n = n) := by
  by_cases h : ends_with n jsonExt = true
  · simp [get_config_filename, h]
  · refine ⟨?_, ?_, ?_⟩
    · simp [get_config_filename, h, ends_with_append_jsonExt]
    · simp [get_config_filename, h, ends_with_append_jsonExt]
    · intro htrue
      exact absurd htrue h

/-- C10 witness: the name `config` (no extension). -/
theorem c10_config_filename_witness :
    ends_with (get_config_filename ['c', 'o', 'n', 'f', 'i', 'g']) jsonExt
      = true ∧
    get_config_filename (get_config_filename ['c', 'o', 'n', 'f', 'i', 'g']) =
      get_config_filename ['c', 'o', 'n', 'f', 'i', 'g'] ∧
    (ends_with ['c', 'o', 'n', 'f', 'i', 'g'] jsonExt = true →
      get_config_filename ['c', 'o', 'n', 'f', 'i', 'g'] =
        ['c', 'o', 'n', 'f', 'i', 'g']) :=
  c10_config_filename ['c', 'o', 'n', 'f', 'i', 'g']

end ApolloHR
